import Mathlib

/-!
# Verification of the order-tracking customer portal

A shallow embedding of the order-tracking synchronizer
(`src/pages/user/hooks/useOrderTracking.ts`) and the map presentation
adapter (`src/components/map.tsx`) of the logistics customer portal,
together with proofs about the properties its specification states.

The synchronizer is an event-driven state reconciler: `handleSearch`
fetches an order (then, concurrently, its trajectory points and item
list) and opens a realtime change-subscription scoped to the order;
the subscription's two handlers merge `UPDATE`-on-orders and
`INSERT`-on-trajectories events into the in-memory session. The
embedding models the hook's React state as an explicit record, the
supabase realtime channels as environment bookkeeping (a list of
active channel ids plus the hook's stored ref), and the asynchronous
`handleSearch` as a synchronous prefix (`handleSearchStart`, what runs
before the first `await`) followed by a continuation
(`handleSearchResume`, what runs when the store responds). Store
responses are oracle parameters shaped like supabase's
`{ data, error }` results. The `setTimeout`-driven "updating"
indicator gets its own small timed model (`observeIndicator`).
-/

namespace LogisticsPortal

/-! ## Data model -/

/-- Modelled from the spec: the `Order` record. Its declaration file
(`@/types/order`) is not among the provided sources; fields follow the
spec's data-model section (identifier, order number, status, sender and
receiver location fields, estimated/actual delivery timestamps).
Timestamps are modelled as `Option Nat` (milliseconds); the handlers
under verification treat the record opaquely. -/
structure Order where
  id : String
  order_number : String
  status : String
  sender_location : String
  receiver_location : String
  estimated_delivery : Option Nat
  actual_delivery : Option Nat
deriving DecidableEq, Repr

/-- Modelled from the spec: the `TrajectoryPoint` record. Its declaration
file (`@/types/order`) is not among the provided sources; fields follow
the spec's data-model section (identifier, owning order identifier,
status tag, description, location fields, timestamp). The timestamp is
modelled as a `Nat` (larger = more recent), matching its use as a sort
key (`order("timestamp", { ascending: false })`). -/
structure TrajectoryPoint where
  id : String
  order_id : String
  status : String
  description : String
  location : String
  timestamp : Nat
deriving DecidableEq, Repr

/-- The `OrderItem` record, from the hook's types file. Prices are
modelled as integer cents; the handlers under verification never
compute with them. -/
structure OrderItem where
  id : String
  order_id : String
  product_name : String
  product_price : Int
  quantity : Nat
  subtotal : Int
  created_at : String
  updated_at : String
deriving DecidableEq, Repr

/-- The client-side tracking session, from the hook's types file:
`{ order, trajectories, orderItems }`. -/
structure TrackingData where
  order : Order
  trajectories : List TrajectoryPoint
  orderItems : List OrderItem
deriving DecidableEq, Repr

/-! ## Hook state and realtime-channel environment -/

/-- A realtime channel identity. Each `supabase.channel(...)` call
creates a fresh channel object; identities are modelled as naturals
drawn from a counter. -/
abbrev ChannelId := Nat

/-- The React state owned by `useOrderTracking`:
`loading`, `searched`, `trackingData`, `isUpdating`, and the
`subscriptionRef` holding the last channel stored (or none). -/
structure HookState where
  loading : Bool
  searched : Bool
  trackingData : Option TrackingData
  isUpdating : Bool
  subscriptionRef : Option ChannelId
deriving DecidableEq, Repr

/-- The hook state together with the supabase-client environment: the
list of channels currently subscribed and not yet removed, and the
fresh-id counter. -/
structure World where
  hook : HookState
  activeChannels : List ChannelId
  nextChannel : Nat
deriving DecidableEq, Repr

/-- The state at mount: nothing loaded, nothing searched, no session,
no subscription. -/
def initialWorld : World :=
  { hook := { loading := false, searched := false, trackingData := none,
              isUpdating := false, subscriptionRef := none },
    activeChannels := [], nextChannel := 0 }

/-- `supabase.removeChannel(c)`: the channel stops being active. -/
def removeChannel (c : ChannelId) (w : World) : World :=
  { w with activeChannels := w.activeChannels.erase c }

/-- `subscribeToOrderUpdates(orderId)` (hook lines 41–95): if a channel
is held in `subscriptionRef`, remove it first; then create a fresh
channel, subscribe it, and store it in the ref. The `orderId` only
names the channel topic and the event filters, which the model keeps
abstract. -/
def subscribeToOrderUpdates (_orderId : String) (w : World) : World :=
  let w :=
    match w.hook.subscriptionRef with
    | some c => removeChannel c w
    | none => w
  let ch := w.nextChannel
  { w with activeChannels := w.activeChannels ++ [ch],
           nextChannel := ch + 1,
           hook := { w.hook with subscriptionRef := some ch } }

/-- The unmount cleanup effect (hook lines 32–38) and
`cleanupSubscription` (lines 163–167) share this body: remove the held
channel, if any; the ref itself is not cleared. -/
def cleanupSubscription (w : World) : World :=
  match w.hook.subscriptionRef with
  | some c => removeChannel c w
  | none => w

/-! ## The realtime event handlers -/

/-- The `UPDATE`-on-`orders` handler (hook lines 57–64): set the
updating indicator and replace the session's order with the payload's
new record; with no active session the state stays `none`. (The
1.5-second auto-clear of the indicator is modelled separately, by
`observeIndicator`.) -/
def handleOrderUpdated (newOrder : Order) (w : World) : World :=
  { w with hook :=
    { w.hook with
      isUpdating := true,
      trackingData :=
        match w.hook.trackingData with
        | none => none
        | some prev => some ({ prev with order := newOrder }) } }

/-- The `INSERT`-on-`logistics_trajectories` handler (hook lines
74–88): set the updating indicator and prepend the payload's new point
to the session's trajectory list; with no active session the state
stays `none`. No sorting is performed. -/
def handleTrajectoryInserted (newTrajectory : TrajectoryPoint) (w : World) : World :=
  { w with hook :=
    { w.hook with
      isUpdating := true,
      trackingData :=
        match w.hook.trackingData with
        | none => none
        | some prev =>
            some ({ prev with trajectories := newTrajectory :: prev.trajectories }) } }

/-! ## The search operation -/

/-- A supabase query result: `{ data, error }`. The store resolves
every query with such a record; it never rejects. -/
structure StoreResponse (α : Type) where
  data : Option α
  error : Option String
deriving DecidableEq, Repr

/-- The message thrown when the order lookup returns no record
(hook line 113). -/
def notFoundMsg : String := "未找到该订单信息，请检查单号"

/-- The outcome of a `handleSearch` call: the resulting world, the
toast messages shown (level, content), the console error logs, and
whether the store was queried at all. -/
structure SearchResult where
  world : World
  messages : List (String × String)
  logs : List String
  fetched : Bool
deriving DecidableEq, Repr

/-- The synchronous prefix of `handleSearch` (hook lines 102–104),
run before the first `await`: set `loading` and `searched`, clear the
session. -/
def handleSearchStart (w : World) : World :=
  { w with hook := { w.hook with loading := true, searched := true, trackingData := none } }

/-- The `finally` clause of `handleSearch` (hook line 156). -/
def finallyClearLoading (w : World) : World :=
  { w with hook := { w.hook with loading := false } }

/-- The continuation of `handleSearch` from its first `await` on (hook
lines 106–157), run when the store's responses arrive; the three
oracle parameters are the order lookup, the trajectory query, and the
item query. A store error or an absent order throws into the `catch`,
which shows the error message; a failed secondary fetch is only
logged, its `data` (null on error) degrading to `[]` via `|| []`; on
success the session is published and `subscribeToOrderUpdates` is
called; the `finally` always clears `loading`. -/
def handleSearchResume (orderResp : StoreResponse Order)
    (trajResp : StoreResponse (List TrajectoryPoint))
    (itemsResp : StoreResponse (List OrderItem)) (w : World) : SearchResult :=
  match orderResp.error with
  | some e => ⟨finallyClearLoading w, [("error", e)], [], true⟩
  | none =>
    match orderResp.data with
    | none => ⟨finallyClearLoading w, [("error", notFoundMsg)], [], true⟩
    | some orderData =>
      let logs :=
        (if trajResp.error.isSome then ["轨迹加载失败"] else []) ++
        (if itemsResp.error.isSome then ["物品加载失败"] else [])
      let td : TrackingData :=
        { order := orderData,
          trajectories := trajResp.data.getD [],
          orderItems := itemsResp.data.getD [] }
      let w := { w with hook := { w.hook with trackingData := some td } }
      let w := subscribeToOrderUpdates orderData.id w
      ⟨finallyClearLoading w, [], logs, true⟩

/-- The whitespace class of JavaScript's `String.prototype.trim`
(ASCII whitespace, NBSP and BOM; the exotic Unicode space separators
are elided, the handlers never receive them). -/
def isJsWhitespace (c : Char) : Bool :=
  c = ' ' || c = '\t' || c = '\n' || c = '\r' || c = '\x0b' || c = '\x0c' ||
  c = ' ' || c = '﻿'

/-- JavaScript's `orderNumber.trim()`: strip the whitespace class from
both ends. -/
def jsTrim (s : String) : String :=
  String.mk (((s.data.dropWhile isJsWhitespace).reverse.dropWhile isJsWhitespace).reverse)

/-- `handleSearch(orderNumber)` (hook lines 98–160) as one step, the
store's responses supplied as oracles: an empty trim returns before
any state write or fetch; otherwise the synchronous prefix runs and
the continuation consumes the responses. -/
def handleSearch (orderNumber : String) (orderResp : StoreResponse Order)
    (trajResp : StoreResponse (List TrajectoryPoint))
    (itemsResp : StoreResponse (List OrderItem)) (w : World) : SearchResult :=
  if jsTrim orderNumber = "" then ⟨w, [], [], false⟩
  else handleSearchResume orderResp trajResp itemsResp (handleSearchStart w)

/-! ## Execution traces

An execution of the client interleaves searches (possibly split at
their `await` point), delivered realtime events, and cleanup calls
(component unmount, logout). `runOps` folds any such sequence over a
world. -/

/-- One observable operation of the hook. A search may appear as one
atomic step or split into its synchronous prefix and its continuation,
so executions in which other steps interleave with an in-flight fetch
are expressible. -/
inductive Op where
  | searchStart : Op
  | searchResume : StoreResponse Order → StoreResponse (List TrajectoryPoint) →
      StoreResponse (List OrderItem) → Op
  | search : String → StoreResponse Order → StoreResponse (List TrajectoryPoint) →
      StoreResponse (List OrderItem) → Op
  | orderUpdated : Order → Op
  | trajectoryInserted : TrajectoryPoint → Op
  | cleanup : Op

/-- The effect of one operation on the world. -/
def stepOp (w : World) : Op → World
  | .searchStart => handleSearchStart w
  | .searchResume r t i => (handleSearchResume r t i w).world
  | .search n r t i => (handleSearch n r t i w).world
  | .orderUpdated o => handleOrderUpdated o w
  | .trajectoryInserted p => handleTrajectoryInserted p w
  | .cleanup => cleanupSubscription w

/-- Run a sequence of operations. -/
def runOps (ops : List Op) (w : World) : World := ops.foldl stepOp w

/-! ## The subscription-count invariant -/

/-- The channel bookkeeping invariant: either no channel is active, or
exactly the channel held in `subscriptionRef` is the one active
channel. It entails `activeChannels.length ≤ 1`. -/
def ChannelInv (w : World) : Prop :=
  w.activeChannels = [] ∨
  ∃ c, w.hook.subscriptionRef = some c ∧ w.activeChannels = [c]

theorem channelInv_initial : ChannelInv initialWorld := Or.inl rfl

theorem channelInv_of_eq {w w' : World}
    (hact : w'.activeChannels = w.activeChannels)
    (href : w'.hook.subscriptionRef = w.hook.subscriptionRef)
    (h : ChannelInv w) : ChannelInv w' := by
  rcases h with h1 | ⟨c, hc, h2⟩
  · exact Or.inl (by rw [hact, h1])
  · exact Or.inr ⟨c, by rw [href, hc], by rw [hact, h2]⟩

theorem channelInv_subscribe (orderId : String) (w : World) (h : ChannelInv w) :
    ChannelInv (subscribeToOrderUpdates orderId w) := by
  cases href : w.hook.subscriptionRef with
  | none =>
    have hact : w.activeChannels = [] := by
      rcases h with h1 | ⟨c, hc, _⟩
      · exact h1
      · rw [href] at hc; cases hc
    refine Or.inr ⟨w.nextChannel, ?_, ?_⟩ <;>
      simp [subscribeToOrderUpdates, href, hact]
  | some c =>
    have hact : w.activeChannels.erase c = [] := by
      rcases h with h1 | ⟨c', hc', hact'⟩
      · simp [h1]
      · rw [href] at hc'; cases hc'; simp [hact']
    refine Or.inr ⟨w.nextChannel, ?_, ?_⟩ <;>
      simp [subscribeToOrderUpdates, removeChannel, href, hact]

theorem channelInv_cleanup (w : World) (h : ChannelInv w) :
    ChannelInv (cleanupSubscription w) := by
  cases href : w.hook.subscriptionRef with
  | none => simpa [cleanupSubscription, href] using h
  | some c =>
    left
    rcases h with h1 | ⟨c', hc', hact'⟩
    · simp [cleanupSubscription, removeChannel, href, h1]
    · rw [href] at hc'; cases hc'
      simp [cleanupSubscription, removeChannel, href, hact']

theorem channelInv_resume (orderResp : StoreResponse Order)
    (trajResp : StoreResponse (List TrajectoryPoint))
    (itemsResp : StoreResponse (List OrderItem)) (w : World) (h : ChannelInv w) :
    ChannelInv (handleSearchResume orderResp trajResp itemsResp w).world := by
  rcases horder : orderResp.error with _ | e
  · rcases hdata : orderResp.data with _ | orderData
    · simpa [handleSearchResume, horder, hdata] using channelInv_of_eq rfl rfl h
    · simp only [handleSearchResume, horder, hdata]
      exact channelInv_of_eq rfl rfl
        (channelInv_subscribe orderData.id _ (channelInv_of_eq rfl rfl h))
  · simpa [handleSearchResume, horder] using channelInv_of_eq rfl rfl h

theorem channelInv_step (w : World) (op : Op) (h : ChannelInv w) :
    ChannelInv (stepOp w op) := by
  cases op with
  | searchStart => exact channelInv_of_eq rfl rfl h
  | searchResume r t i => exact channelInv_resume r t i w h
  | search n r t i =>
    by_cases hn : jsTrim n = ""
    · simpa [stepOp, handleSearch, hn] using h
    · simpa [stepOp, handleSearch, hn] using
        channelInv_resume r t i (handleSearchStart w) (channelInv_of_eq rfl rfl h)
  | orderUpdated o => exact channelInv_of_eq rfl rfl h
  | trajectoryInserted p => exact channelInv_of_eq rfl rfl h
  | cleanup => exact channelInv_cleanup w h

theorem channelInv_run (ops : List Op) (w : World) (h : ChannelInv w) :
    ChannelInv (runOps ops w) := by
  induction ops generalizing w with
  | nil => exact h
  | cons op rest ih => exact ih _ (channelInv_step w op h)

/-- C1: at every point of every execution starting at mount, the
client holds at most one active change-subscription:
`subscribeToOrderUpdates` first releases the held channel (via
`removeChannel` on the stored ref) before creating and storing the new
one, so across every sequence of searches, resumed searches, delivered
events and cleanups, the number of active channels never exceeds 1. -/
theorem c1_subscription_count_never_exceeds_one (ops : List Op) :
    (runOps ops initialWorld).activeChannels.length ≤ 1 := by
  rcases channelInv_run ops initialWorld channelInv_initial with h | ⟨c, _, h⟩ <;>
    simp [h]

/-! ## The timed model of the "updating" indicator

Both realtime handlers run `setIsUpdating(true)` and then
`setTimeout(() => setIsUpdating(false), 1500)` (hook lines 57–63 and
75–87). No timer handle is kept and `clearTimeout` is never called, so
every scheduled clear eventually fires. The model below processes
event deliveries in arrival order; before each delivery, and before an
observation, every timer already due has fired. Times are
milliseconds. -/

/-- The indicator value together with the clear timers scheduled and
not yet fired (absolute fire times). -/
structure IndicatorState where
  isUpdating : Bool
  pending : List Nat
deriving DecidableEq, Repr

/-- Fire every pending timer whose fire time is strictly below
`cutoff`: each one runs `setIsUpdating(false)`, so the indicator
survives only if none is due. -/
def fireDue (cutoff : Nat) (s : IndicatorState) : IndicatorState :=
  { isUpdating := s.isUpdating && (s.pending.filter (fun c => c < cutoff)).isEmpty,
    pending := s.pending.filter (fun c => ¬ c < cutoff) }

/-- Deliver one realtime event at time `e`: timers due before `e` fire
first, then the handler sets the indicator and schedules a clear at
`e + 1500`. -/
def deliverEvent (e : Nat) (s : IndicatorState) : IndicatorState :=
  let s := fireDue e s
  { isUpdating := true, pending := s.pending ++ [e + 1500] }

/-- No indicator, no timers: the state before any event. -/
def indicatorInit : IndicatorState := ⟨false, []⟩

/-- The indicator observed at time `t`, after events delivered at the
times in `events` (in arrival order) and after every timer due at or
before `t` has fired. -/
def observeIndicator (events : List Nat) (t : Nat) : Bool :=
  (fireDue (t + 1) (events.foldl (fun s e => deliverEvent e s) indicatorInit)).isUpdating

/-! ## Trajectory recency order -/

/-- The newest-first invariant: timestamps are non-increasing from
index 0 (equivalently, recency is non-decreasing from index 0). -/
def newestFirstB : List TrajectoryPoint → Bool
  | [] => true
  | [_] => true
  | a :: b :: rest => (b.timestamp ≤ a.timestamp) && newestFirstB (b :: rest)

/-! ## The map presentation adapter

`src/components/map.tsx`: `initMap` checks the credentials, awaits the
shared loader, and constructs the map; the loading overlay is driven
by the `loading` state, initially `true`. The model runs one `initMap`
flow to quiescence, the SDK's behavior supplied as an oracle, and
returns the error messages surfaced and the final `loading` value. -/

/-- What the map SDK does on this run: the loader promise rejects
(caught by the `try`/`catch`), the constructed map fires its `error`
event, or it fires `complete`. -/
inductive SdkOutcome where
  | loadFails : SdkOutcome
  | mapError : SdkOutcome
  | complete : SdkOutcome
deriving DecidableEq, Repr

/-- The `initMap` flow of `src/components/map.tsx` (lines 66–117) with
its event callbacks (lines 99–108): missing key or security code
surfaces a configuration error; a loader rejection or an SDK `error`
event surfaces one error; each error path and the `complete` event run
`setLoading(false)`. When `destroyed` is already set the callbacks do
nothing and `loading` keeps its initial `true`. Returns the error
messages surfaced and the final `loading` value. -/
def initMapRun (key securityCode : Option String) (outcome : SdkOutcome)
    (destroyed : Bool) : List String × Bool :=
  if key.isNone || securityCode.isNone then
    if destroyed then ([], true)
    else (["地图配置错误：缺少 Key 或 Security Code"], false)
  else
    match outcome with
    | .loadFails =>
        if destroyed then ([], true) else (["地图服务连接失败"], false)
    | .mapError =>
        if destroyed then ([], true) else (["地图加载发生错误"], false)
    | .complete =>
        if destroyed then ([], true) else ([], false)

/-! ## Sample records for concrete scenarios -/

/-- A concrete order, as the sample search of the portal returns it. -/
def sampleOrder : Order :=
  { id := "o1", order_number := "ORD202401150001", status := "shipping",
    sender_location := "114.05,22.54", receiver_location := "113.26,23.13",
    estimated_delivery := some 1705300000000, actual_delivery := none }

/-- A trajectory point with timestamp 10 (the more recent one). -/
def ptRecent : TrajectoryPoint :=
  { id := "t1", order_id := "o1", status := "in_transit",
    description := "深圳转运中心", location := "114.05,22.54", timestamp := 10 }

/-- A trajectory point with timestamp 5: older than `ptRecent`, but
delivered later by the feed. -/
def ptLate : TrajectoryPoint :=
  { id := "t2", order_id := "o1", status := "pickup",
    description := "已揽收", location := "113.26,23.13", timestamp := 5 }

/-- A world with an active session whose trajectory list is the
newest-first singleton `[ptRecent]`. -/
def sessionWorld : World :=
  { hook := { loading := false, searched := true,
              trackingData := some ⟨sampleOrder, [ptRecent], []⟩,
              isUpdating := false, subscriptionRef := some 0 },
    activeChannels := [0], nextChannel := 1 }

/-- A trajectory point with timestamp 20: newer than everything in
`sessionWorld`, the in-order delivery case. -/
def ptNewest : TrajectoryPoint :=
  { id := "t3", order_id := "o1", status := "out_for_delivery",
    description := "派送中", location := "113.26,23.13", timestamp := 20 }

/-- The full replacement record an `UPDATE` event carries. -/
def updatedOrder : Order :=
  { id := "o1", order_number := "ORD202401150001", status := "delivered",
    sender_location := "114.05,22.54", receiver_location := "113.26,23.13",
    estimated_delivery := some 1705300000000,
    actual_delivery := some 1705312345678 }

/-! ## The trajectory-inserted merge (claim C2) -/

/-- C2 counterexample: the handler performs no sort on out-of-order
delivery. In a session whose trajectory list is `[ptRecent]`
(timestamp 10), delivering an insert event whose point has timestamp 5
prepends it, and the resulting list `[ptLate, ptRecent]` is not
newest-first — the claimed restore-by-sorting does not happen. -/
theorem c2_counterexample_no_resort :
    (handleTrajectoryInserted ptLate sessionWorld).hook.trackingData =
      some ⟨sampleOrder, [ptLate, ptRecent], []⟩ ∧
    newestFirstB [ptLate, ptRecent] = false := by
  exact ⟨rfl, by decide⟩

/-- C2 (amended): for every trajectory-inserted event delivered to an
active session, the handler prepends the new point — the list length
increases by exactly 1 and the new entry is at index 0 — and the
newest-first invariant is preserved exactly when delivery is in order,
i.e. when the incoming point's timestamp is at least that of every
entry already in the (newest-first) list; no sorting is performed, so
out-of-timestamp-order delivery is not reordered. -/
theorem c2_trajectory_prepend (w : World) (prev : TrackingData) (p : TrajectoryPoint)
    (h : w.hook.trackingData = some prev)
    (hle : ∀ q ∈ prev.trajectories, q.timestamp ≤ p.timestamp)
    (hnf : newestFirstB prev.trajectories = true) :
    (handleTrajectoryInserted p w).hook.trackingData =
      some ({ prev with trajectories := p :: prev.trajectories }) ∧
    (p :: prev.trajectories).length = prev.trajectories.length + 1 ∧
    (p :: prev.trajectories).head? = some p ∧
    newestFirstB (p :: prev.trajectories) = true := by
  refine ⟨by simp [handleTrajectoryInserted, h], by simp, rfl, ?_⟩
  cases hprev : prev.trajectories with
  | nil => rfl
  | cons a rest =>
    rw [hprev] at hnf hle
    simp only [newestFirstB, Bool.and_eq_true, decide_eq_true_eq]
    exact ⟨hle a (List.mem_cons_self a rest), hnf⟩

theorem c2_trajectory_prepend_witness :
    (handleTrajectoryInserted ptNewest sessionWorld).hook.trackingData =
      some ({ (⟨sampleOrder, [ptRecent], []⟩ : TrackingData) with
              trajectories := ptNewest :: [ptRecent] }) ∧
    (ptNewest :: [ptRecent]).length = [ptRecent].length + 1 ∧
    (ptNewest :: [ptRecent]).head? = some ptNewest ∧
    newestFirstB (ptNewest :: [ptRecent]) = true :=
  c2_trajectory_prepend sessionWorld ⟨sampleOrder, [ptRecent], []⟩ ptNewest
    rfl (by decide) (by decide)

/-! ## The stale resume after unmount (claim C3) -/

/-- C3: the code violates the claim. `handleSearch` keeps no
"still mounted / still current" flag: after the view's cleanup has run
(`cleanupSubscription`, the unmount effect's body) while the fetch is
in flight, the resolving fetch still publishes the session and still
creates and stores a change-subscription — the world reached holds one
active channel and a non-null session, produced entirely by the stale
fetch after teardown. -/
theorem c3_stale_resume_mutates_after_unmount :
    ((handleSearchResume ⟨some sampleOrder, none⟩ ⟨some [ptRecent], none⟩
        ⟨some [], none⟩
        (cleanupSubscription (handleSearchStart initialWorld))).world.activeChannels.length
      = 1) ∧
    (handleSearchResume ⟨some sampleOrder, none⟩ ⟨some [ptRecent], none⟩
        ⟨some [], none⟩
        (cleanupSubscription (handleSearchStart initialWorld))).world.hook.trackingData
      = some ⟨sampleOrder, [ptRecent], []⟩ := by
  exact ⟨rfl, rfl⟩

/-! ## The updating-indicator auto-clear (claim C4) -/

/-- C4 counterexample: the auto-clear timer is not cancelable or
supersedable. With events at 0 ms and 1000 ms, the first event's timer
fires at 1500 ms and clears the indicator, although only 500 ms — not
1.5 s — have passed since the most recent event (whose own clear is
due at 2500 ms): an out-of-order early clear, contradicting the claim
that the indicator is cleared exactly 1.5 s after the most recent
event. -/
theorem c4_counterexample_early_clear :
    observeIndicator [0, 1000] 1000 = true ∧
    observeIndicator [0, 1000] 1500 = false ∧
    1500 < 1000 + 1500 := by
  decide

/-- C4 (amended): every order-updated or trajectory-inserted event
sets the "updating" indicator and schedules an auto-clear 1.5 s after
that event; in isolation the indicator is cleared exactly 1.5 s after
the event. The timers are not cancelable: when a second event arrives
before the first timer fires, the first timer still fires and clears
the indicator 1.5 s after the first event — earlier than 1.5 s after
the most recent one. The delay never blocks processing of subsequent
events: a later event is processed and sets the indicator back. -/
theorem c4_autoclear_not_cancelable (e₁ e₂ t : Nat)
    (hlt : e₁ < e₂) (hburst : e₂ < e₁ + 1500)
    (ht₁ : e₁ ≤ t) (ht₂ : t < e₁ + 1500) :
    observeIndicator [e₁] t = true ∧
    observeIndicator [e₁] (e₁ + 1500) = false ∧
    observeIndicator [e₁, e₂] e₂ = true ∧
    observeIndicator [e₁, e₂] (e₁ + 1500) = false ∧
    observeIndicator [e₁, e₂] (e₂ + 1500) = false := by
  have h1 : ¬ (e₁ + 1500 < t + 1) := by omega
  have h2 : e₁ + 1500 < e₁ + 1500 + 1 := by omega
  have h3 : ¬ (e₁ + 1500 < e₂) := by omega
  have h4 : ¬ (e₁ + 1500 < e₂ + 1) := by omega
  have h5 : ¬ (e₂ + 1500 < e₂ + 1) := by omega
  have h6 : e₁ + 1500 < e₁ + 1500 + 1 := by omega
  have h7 : e₁ + 1500 < e₂ + 1500 + 1 := by omega
  refine ⟨?_, ?_, ?_, ?_, ?_⟩ <;>
    simp [observeIndicator, deliverEvent, fireDue, indicatorInit,
          h1, h2, h3, h4, h5, h6, h7]

theorem c4_autoclear_not_cancelable_witness :
    observeIndicator [0] 700 = true ∧
    observeIndicator [0] (0 + 1500) = false ∧
    observeIndicator [0, 1000] 1000 = true ∧
    observeIndicator [0, 1000] (0 + 1500) = false ∧
    observeIndicator [0, 1000] (1000 + 1500) = false :=
  c4_autoclear_not_cancelable 0 1000 700
    (by decide) (by decide) (by decide) (by decide)

/-! ## The order-updated frame property (claim C5) -/

/-- C5: for every order-updated event delivered to an active session,
only the session's order record is replaced — with the event's new
full record — while the trajectories list and the orderItems list of
the session are exactly those of the previous session. -/
theorem c5_order_update_replaces_only_order (w : World) (prev : TrackingData)
    (newOrder : Order) (h : w.hook.trackingData = some prev) :
    (handleOrderUpdated newOrder w).hook.trackingData =
      some { order := newOrder,
             trajectories := prev.trajectories,
             orderItems := prev.orderItems } := by
  simp [handleOrderUpdated, h]

theorem c5_order_update_replaces_only_order_witness :
    (handleOrderUpdated updatedOrder sessionWorld).hook.trackingData =
      some { order := updatedOrder,
             trajectories := (⟨sampleOrder, [ptRecent], []⟩ : TrackingData).trajectories,
             orderItems := (⟨sampleOrder, [ptRecent], []⟩ : TrackingData).orderItems } :=
  c5_order_update_replaces_only_order sessionWorld ⟨sampleOrder, [ptRecent], []⟩
    updatedOrder rfl

/-! ## Blank search input (claim C6) -/

/-- C6: for every order number whose trim is empty, `handleSearch`
performs no store fetch, shows no message, and leaves the entire
world — loading, searched, trackingData, the stored subscription ref
and the active channels — untouched. -/
theorem c6_blank_input_is_noop (orderNumber : String)
    (orderResp : StoreResponse Order) (trajResp : StoreResponse (List TrajectoryPoint))
    (itemsResp : StoreResponse (List OrderItem)) (w : World)
    (h : jsTrim orderNumber = "") :
    handleSearch orderNumber orderResp trajResp itemsResp w =
      ⟨w, [], [], false⟩ := by
  simp [handleSearch, h]

theorem c6_blank_input_is_noop_witness :
    handleSearch "   " ⟨some sampleOrder, none⟩ ⟨some [], none⟩ ⟨some [], none⟩
        sessionWorld =
      ⟨sessionWorld, [], [], false⟩ :=
  c6_blank_input_is_noop "   " ⟨some sampleOrder, none⟩ ⟨some [], none⟩
    ⟨some [], none⟩ sessionWorld (by decide)

/-! ## The not-found search outcome (claim C7) -/

/-- C7: for every search (non-blank input) whose order lookup returns
no record and no store error, the run ends in the distinguishable
"no result" state — `searched = true`, `trackingData = none`,
`loading = false` — the specific not-found message is the one error
reported, and no change-subscription is created: the stored ref, the
active channels and the channel counter are unchanged. -/
theorem c7_not_found_outcome (orderNumber : String)
    (trajResp : StoreResponse (List TrajectoryPoint))
    (itemsResp : StoreResponse (List OrderItem)) (w : World)
    (h : ¬ jsTrim orderNumber = "") :
    (handleSearch orderNumber ⟨none, none⟩ trajResp itemsResp w).world.hook.searched
        = true ∧
    (handleSearch orderNumber ⟨none, none⟩ trajResp itemsResp w).world.hook.trackingData
        = none ∧
    (handleSearch orderNumber ⟨none, none⟩ trajResp itemsResp w).world.hook.loading
        = false ∧
    (handleSearch orderNumber ⟨none, none⟩ trajResp itemsResp w).messages
        = [("error", notFoundMsg)] ∧
    (handleSearch orderNumber ⟨none, none⟩ trajResp itemsResp w).world.hook.subscriptionRef
        = w.hook.subscriptionRef ∧
    (handleSearch orderNumber ⟨none, none⟩ trajResp itemsResp w).world.activeChannels
        = w.activeChannels ∧
    (handleSearch orderNumber ⟨none, none⟩ trajResp itemsResp w).world.nextChannel
        = w.nextChannel := by
  simp [handleSearch, h, handleSearchResume, handleSearchStart, finallyClearLoading]

theorem c7_not_found_outcome_witness :
    (handleSearch "UNKNOWN123" ⟨none, none⟩ ⟨some [], none⟩ ⟨some [], none⟩
        initialWorld).world.hook.searched = true ∧
    (handleSearch "UNKNOWN123" ⟨none, none⟩ ⟨some [], none⟩ ⟨some [], none⟩
        initialWorld).world.hook.trackingData = none ∧
    (handleSearch "UNKNOWN123" ⟨none, none⟩ ⟨some [], none⟩ ⟨some [], none⟩
        initialWorld).world.hook.loading = false ∧
    (handleSearch "UNKNOWN123" ⟨none, none⟩ ⟨some [], none⟩ ⟨some [], none⟩
        initialWorld).messages = [("error", notFoundMsg)] ∧
    (handleSearch "UNKNOWN123" ⟨none, none⟩ ⟨some [], none⟩ ⟨some [], none⟩
        initialWorld).world.hook.subscriptionRef = initialWorld.hook.subscriptionRef ∧
    (handleSearch "UNKNOWN123" ⟨none, none⟩ ⟨some [], none⟩ ⟨some [], none⟩
        initialWorld).world.activeChannels = initialWorld.activeChannels ∧
    (handleSearch "UNKNOWN123" ⟨none, none⟩ ⟨some [], none⟩ ⟨some [], none⟩
        initialWorld).world.nextChannel = initialWorld.nextChannel :=
  c7_not_found_outcome "UNKNOWN123" ⟨some [], none⟩ ⟨some [], none⟩ initialWorld
    (by decide)

/-! ## Degraded secondary fetches (claim C8) -/

/-- Creating a subscription leaves the hook's session untouched. -/
theorem subscribe_trackingData (orderId : String) (w : World) :
    (subscribeToOrderUpdates orderId w).hook.trackingData = w.hook.trackingData := by
  cases href : w.hook.subscriptionRef <;>
    simp [subscribeToOrderUpdates, removeChannel, href]

/-- Creating a subscription leaves the hook's loading flag untouched. -/
theorem subscribe_loading (orderId : String) (w : World) :
    (subscribeToOrderUpdates orderId w).hook.loading = w.hook.loading := by
  cases href : w.hook.subscriptionRef <;>
    simp [subscribeToOrderUpdates, removeChannel, href]

/-- C8: for every search (non-blank input) whose order lookup succeeds
but whose trajectory fetch or item fetch fails (the store pairs an
error with null data, degraded to `[]` by `|| []`), the session is
still published with the fetched order, the failed fetch's list is the
empty list, the corresponding failure is logged, and the search does
not enter the error path: no message is shown and loading clears. -/
theorem c8_secondary_failure_degrades_to_empty (orderNumber : String)
    (orderData : Order) (trajResp : StoreResponse (List TrajectoryPoint))
    (itemsResp : StoreResponse (List OrderItem)) (w : World)
    (hn : ¬ jsTrim orderNumber = "")
    (hT : trajResp.error.isSome = true → trajResp.data = none)
    (hI : itemsResp.error.isSome = true → itemsResp.data = none)
    (hfail : trajResp.error.isSome = true ∨ itemsResp.error.isSome = true) :
    (handleSearch orderNumber ⟨some orderData, none⟩ trajResp itemsResp
        w).world.hook.trackingData =
      some { order := orderData,
             trajectories := trajResp.data.getD [],
             orderItems := itemsResp.data.getD [] } ∧
    (trajResp.error.isSome = true → trajResp.data.getD [] = ([] : List TrajectoryPoint)) ∧
    (itemsResp.error.isSome = true → itemsResp.data.getD [] = ([] : List OrderItem)) ∧
    (handleSearch orderNumber ⟨some orderData, none⟩ trajResp itemsResp w).logs =
      (if trajResp.error.isSome then ["轨迹加载失败"] else []) ++
      (if itemsResp.error.isSome then ["物品加载失败"] else []) ∧
    (handleSearch orderNumber ⟨some orderData, none⟩ trajResp itemsResp w).logs ≠ [] ∧
    (handleSearch orderNumber ⟨some orderData, none⟩ trajResp itemsResp w).messages
      = [] ∧
    (handleSearch orderNumber ⟨some orderData, none⟩ trajResp itemsResp
        w).world.hook.loading = false := by
  refine ⟨?_, ?_, ?_, ?_, ?_, ?_, ?_⟩
  · simp [handleSearch, hn, handleSearchResume, handleSearchStart, finallyClearLoading,
      subscribe_trackingData, subscribe_loading]
  · intro h; rw [hT h]; rfl
  · intro h; rw [hI h]; rfl
  · simp [handleSearch, hn, handleSearchResume, handleSearchStart, finallyClearLoading,
      subscribe_trackingData, subscribe_loading]
  · rcases hfail with h | h <;>
      simp [handleSearch, hn, handleSearchResume, handleSearchStart, finallyClearLoading,
        subscribe_trackingData, subscribe_loading, h]
  · simp [handleSearch, hn, handleSearchResume, handleSearchStart, finallyClearLoading,
      subscribe_trackingData, subscribe_loading]
  · simp [handleSearch, hn, handleSearchResume, handleSearchStart, finallyClearLoading,
      subscribe_trackingData, subscribe_loading]

theorem c8_secondary_failure_degrades_to_empty_witness :
    (handleSearch "ORD202401150001" ⟨some sampleOrder, none⟩
        ⟨none, some "permission denied"⟩ ⟨some [], none⟩
        initialWorld).world.hook.trackingData =
      some { order := sampleOrder,
             trajectories := (none : Option (List TrajectoryPoint)).getD [],
             orderItems := (some ([] : List OrderItem)).getD [] } ∧
    ((⟨none, some "permission denied"⟩ :
        StoreResponse (List TrajectoryPoint)).error.isSome = true →
      (none : Option (List TrajectoryPoint)).getD [] = ([] : List TrajectoryPoint)) ∧
    ((⟨some [], none⟩ : StoreResponse (List OrderItem)).error.isSome = true →
      (some ([] : List OrderItem)).getD [] = ([] : List OrderItem)) ∧
    (handleSearch "ORD202401150001" ⟨some sampleOrder, none⟩
        ⟨none, some "permission denied"⟩ ⟨some [], none⟩ initialWorld).logs =
      (if (⟨none, some "permission denied"⟩ :
            StoreResponse (List TrajectoryPoint)).error.isSome
        then ["轨迹加载失败"] else []) ++
      (if (⟨some [], none⟩ : StoreResponse (List OrderItem)).error.isSome
        then ["物品加载失败"] else []) ∧
    (handleSearch "ORD202401150001" ⟨some sampleOrder, none⟩
        ⟨none, some "permission denied"⟩ ⟨some [], none⟩ initialWorld).logs ≠ [] ∧
    (handleSearch "ORD202401150001" ⟨some sampleOrder, none⟩
        ⟨none, some "permission denied"⟩ ⟨some [], none⟩ initialWorld).messages = [] ∧
    (handleSearch "ORD202401150001" ⟨some sampleOrder, none⟩
        ⟨none, some "permission denied"⟩ ⟨some [], none⟩
        initialWorld).world.hook.loading = false :=
  c8_secondary_failure_degrades_to_empty "ORD202401150001" sampleOrder
    ⟨none, some "permission denied"⟩ ⟨some [], none⟩ initialWorld
    (by decide) (fun _ => rfl) (fun h => by cases h) (Or.inl rfl)

/-! ## The map adapter error paths (claim C9) -/

/-- C9: for every run of the map adapter whose view is still mounted,
if the configuration is missing (no key or no security code) or the
SDK reports an error (the loader rejects or the map fires `error`),
exactly one user-facing error is surfaced and the loading state ends:
the final `loading` is `false`, so the overlay does not stay shown. -/
theorem c9_map_error_ends_loading (key securityCode : Option String)
    (outcome : SdkOutcome)
    (h : key = none ∨ securityCode = none ∨
         outcome = SdkOutcome.loadFails ∨ outcome = SdkOutcome.mapError) :
    (initMapRun key securityCode outcome false).1.length = 1 ∧
    (initMapRun key securityCode outcome false).2 = false := by
  rcases h with h | h | h | h
  · subst h; simp [initMapRun]
  · subst h; simp [initMapRun]
  · subst h
    cases hks : (key.isNone || securityCode.isNone) <;> simp [initMapRun, hks]
  · subst h
    cases hks : (key.isNone || securityCode.isNone) <;> simp [initMapRun, hks]

theorem c9_map_error_ends_loading_witness :
    (initMapRun (some "amap-key") (some "amap-code") SdkOutcome.mapError false).1.length
      = 1 ∧
    (initMapRun (some "amap-key") (some "amap-code") SdkOutcome.mapError false).2
      = false :=
  c9_map_error_ends_loading (some "amap-key") (some "amap-code") SdkOutcome.mapError
    (Or.inr (Or.inr (Or.inr rfl)))

/-! ## Events with no active session (claim C10) -/

/-- C10: for every order-updated or trajectory-inserted event
delivered while no session is active (`trackingData = none`), the
session stays `none`: the handlers' null-guard means no partial
session is ever constructed from an event alone. -/
theorem c10_null_session_stays_null (w : World) (o : Order) (p : TrajectoryPoint)
    (h : w.hook.trackingData = none) :
    (handleOrderUpdated o w).hook.trackingData = none ∧
    (handleTrajectoryInserted p w).hook.trackingData = none := by
  simp [handleOrderUpdated, handleTrajectoryInserted, h]

theorem c10_null_session_stays_null_witness :
    (handleOrderUpdated updatedOrder initialWorld).hook.trackingData = none ∧
    (handleTrajectoryInserted ptNewest initialWorld).hook.trackingData = none :=
  c10_null_session_stays_null initialWorld updatedOrder ptNewest rfl

end LogisticsPortal
